import Mathlib

set_option maxRecDepth 4000

/-!
Shallow embedding of the mizu-router core (src/packages/mizu-router/src/index.ts):
the trie store, registrar, matcher (`tryMatch`) and middleware dispatcher
(`compose` / `dispatch`) of the `Router` class, together with the mount adapter
(`route`) and the serving entry point (`handle`).

JavaScript features are modelled as follows:
* `Map<string, T>` and `Record<string, string>` objects are association lists
  with insert-or-overwrite (`setA`) and first-match lookup (`getA`);
* promises/exceptions are a state-passing result monad `JsM`: a computation
  takes the mutable state and returns `Except String α` (a thrown JS error is
  `Except.error`) together with the updated state — state survives a throw,
  as JS mutation does;
* the dispatcher's closure-local `index` cell is the `index` field of `DState`;
  `compose` saves the caller's value and restores it afterwards, which is
  observationally the fresh-cell-per-call semantics of the source;
* `Request`/`URL` are structural records (method, base, pathname, search
  params); `new Request(newUrl.toString(), ctx.req)` keeps the method and
  replaces the URL.
-/

/-- First-match lookup in an association list (JS `Map.get` / property read). -/
def getA {α : Type} : List (String × α) → String → Option α
  | [], _ => none
  | (k, v) :: rest, key => if k = key then some v else getA rest key

/-- Insert-or-overwrite in an association list (JS `Map.set` / property write):
an existing key keeps its position and receives the new value. -/
def setA {α : Type} : List (String × α) → String → α → List (String × α)
  | [], key, v => [(key, v)]
  | (k, w) :: rest, key, v =>
    if k = key then (key, v) :: rest else (k, w) :: setA rest key v

/-- Whether the first character list starts with the second. -/
def listStartsWith : List Char → List Char → Bool
  | _, [] => true
  | [], _ :: _ => false
  | c :: cs, p :: ps => c == p && listStartsWith cs ps

/-- JS `String.prototype.startsWith`, on the character level. -/
def strStartsWith (s p : String) : Bool := listStartsWith s.toList p.toList

/-- JS `String.prototype.endsWith`, on the character level. -/
def strEndsWith (s p : String) : Bool :=
  listStartsWith s.toList.reverse p.toList.reverse

/-- JS `String.prototype.slice(n)` for a nonnegative `n`. -/
def strDrop (s : String) (n : Nat) : String := String.mk (s.toList.drop n)

/-- JS `String.prototype.length` (code points; the paths involved are ASCII). -/
def strLength (s : String) : Nat := s.toList.length

/-- Helper for `splitOnSlash`: accumulates the current segment (reversed). -/
def splitSegsAux : List Char → List Char → List String
  | [], acc => [String.mk acc.reverse]
  | c :: cs, acc =>
    if c = '/' then String.mk acc.reverse :: splitSegsAux cs []
    else splitSegsAux cs (c :: acc)

/-- JS `String.prototype.split("/")`: every separator splits, empty pieces kept. -/
def splitOnSlash (s : String) : List String := splitSegsAux s.toList []

/-- JS `path.replace(/^\//, "")`: removes one leading slash if present. -/
def dropLeadingSlash (s : String) : String :=
  match s.toList with
  | '/' :: rest => String.mk rest
  | _ => s

/-- `splitPath` of the source: `path.replace(/^\//, "").split("/").filter(Boolean)`. -/
def splitPath (path : String) : List String :=
  (splitOnSlash (dropLeadingSlash path)).filter (fun s => s != "")

/-- JS `Array.prototype.join("/")`. -/
def joinSlash : List String → String
  | [] => ""
  | [s] => s
  | s :: rest => s ++ "/" ++ joinSlash rest

/-- Structural model of a URL: scheme-plus-host, pathname, and search params. -/
structure Url where
  base : String
  pathname : String
  searchParams : List (String × String)
  deriving DecidableEq

/-- Structural model of a `Request`: its method and URL. -/
structure Request where
  method : String
  url : Url
  deriving DecidableEq

/-- Structural model of a `Response`: body text and status code. -/
structure Response where
  body : String
  status : Nat
  deriving DecidableEq

/-- `new Response("Not Found", { status: 404 })`. -/
def notFoundResponse : Response := ⟨"Not Found", 404⟩

/-- `new Response("Internal Server Error", { status: 500 })`. -/
def internalServerErrorResponse : Response := ⟨"Internal Server Error", 500⟩

/-- `new Response("OK")` (default status 200). -/
def okResponse : Response := ⟨"OK", 200⟩

/-- JS `Object.fromEntries`: later entries overwrite earlier ones. -/
def fromEntries (l : List (String × String)) : List (String × String) :=
  l.foldl (fun acc p => setA acc p.1 p.2) []

/-- The per-request `Context` record of the source. -/
structure Context (Env Store : Type) where
  req : Request
  params : List (String × String)
  query : List (String × String)
  env : Env
  store : Store
  deriving DecidableEq

/-- Dispatcher-visible mutable state: the `index` cursor cell of `compose`
plus an arbitrary user-chosen state `σ` that test handlers may mutate. -/
structure DState (σ : Type) where
  index : Int
  user : σ
  deriving DecidableEq

/-- The JS effect monad: state passing plus thrown errors; state survives a
throw (JS mutations are not rolled back by exceptions). -/
def JsM (σ α : Type) : Type := σ → Except String α × σ

/-- The `Handler` signature of the source: `(ctx, next) => Promise<Response | void>`.
The `next` thunk is modelled directly as the computation it runs. -/
def Handler (Env Store σ : Type) : Type :=
  Context Env Store → JsM (DState σ) (Option Response) → JsM (DState σ) (Option Response)

/-- The `RouteNode` record of the source: terminal handler plus the snapshot
of the middleware chain taken at registration time. -/
structure RouteNode (H : Type) where
  handler : H
  middlewares : List H
  deriving DecidableEq

/-- The `TrieNode` record of the source: literal children, optional parameter
child, the capture name (stored on the parameter child itself), optional
wildcard child, and an optional bound route. -/
inductive TrieNode (H : Type) : Type where
  | mk (children : List (String × TrieNode H)) (paramChild : Option (TrieNode H))
      (paramName : Option String) (wildcardChild : Option (TrieNode H))
      (route : Option (RouteNode H)) : TrieNode H

/-- Literal children of a trie node. -/
def TrieNode.children {H : Type} : TrieNode H → List (String × TrieNode H)
  | ⟨c, _, _, _, _⟩ => c

/-- Parameter child of a trie node, if any. -/
def TrieNode.paramChild {H : Type} : TrieNode H → Option (TrieNode H)
  | ⟨_, p, _, _, _⟩ => p

/-- Capture name carried by a node that is a parameter child. -/
def TrieNode.paramName {H : Type} : TrieNode H → Option String
  | ⟨_, _, n, _, _⟩ => n

/-- Wildcard child of a trie node, if any. -/
def TrieNode.wildcardChild {H : Type} : TrieNode H → Option (TrieNode H)
  | ⟨_, _, _, w, _⟩ => w

/-- Route bound at a trie node, if any. -/
def TrieNode.route {H : Type} : TrieNode H → Option (RouteNode H)
  | ⟨_, _, _, _, r⟩ => r

/-- `createNode()` of the source: an empty trie node. -/
def createNode {H : Type} : TrieNode H := ⟨[], none, none, none, none⟩

/-- Overwrites the route bound at a node (the `node.route = {...}` assignment). -/
def setRouteField {H : Type} : TrieNode H → RouteNode H → TrieNode H
  | ⟨ch, pc, pn, wc, _⟩, rt => ⟨ch, pc, pn, wc, some rt⟩

/-- The segment loop of `register`: descends/creates trie edges for each
pattern segment and binds the route at the final node.  A `"*"` segment
moves to the (created or reused) wildcard child and stops consuming the
pattern; a `":"`-prefixed segment reuses an existing parameter child
unchanged (its stored capture name is NOT updated) or creates a fresh one
carrying the capture name; any other segment is a literal edge. -/
def insertRoute {H : Type} : TrieNode H → List String → RouteNode H → TrieNode H
  | ⟨ch, pc, pn, wc, rt⟩, [], newRoute => ⟨ch, pc, pn, wc, some newRoute⟩
  | ⟨ch, pc, pn, wc, rt⟩, seg :: rest, newRoute =>
    if seg = "*" then
      ⟨ch, pc, pn, some (setRouteField (wc.getD createNode) newRoute), rt⟩
    else if strStartsWith seg ":" = true then
      let p := match pc with
        | some p => p
        | none => ⟨[], none, some (strDrop seg 1), none, none⟩
      ⟨ch, some (insertRoute p rest newRoute), pn, wc, rt⟩
    else
      ⟨setA ch seg (insertRoute ((getA ch seg).getD createNode) rest newRoute),
        pc, pn, wc, rt⟩

/-- The matching loop of `tryMatch` in `handle`: consumes the path segments,
preferring a literal child, then the parameter child (binding the segment
under the stored capture name), then the wildcard child (binding the joined
remainder under `"*"` and stopping); the walk succeeds only if the final
node carries a route, and then yields the locally accumulated params. -/
def tryMatchLoop {H : Type} :
    TrieNode H → List String → List (String × String) →
    Option (RouteNode H × List (String × String))
  | cur, [], params =>
    match cur.route with
    | some rt => some (rt, params)
    | none => none
  | cur, seg :: rest, params =>
    match getA cur.children seg with
    | some child => tryMatchLoop child rest params
    | none =>
      match cur.paramChild with
      | some pc => tryMatchLoop pc rest (setA params (pc.paramName.getD "undefined") seg)
      | none =>
        match cur.wildcardChild with
        | some wc =>
          match wc.route with
          | some rt => some (rt, setA params "*" (joinSlash (seg :: rest)))
          | none => none
        | none => none

/-- `tryMatch` of `handle`: returns `undefined` for a missing tree, otherwise
walks the tree from its root with an empty local params map. -/
def tryMatch {H : Type} (node : Option (TrieNode H)) (segments : List String) :
    Option (RouteNode H × List (String × String)) :=
  match node with
  | none => none
  | some n => tryMatchLoop n segments []

/-- The `Router` class state: one tree per method key plus the global
middleware list. -/
structure Router (H : Type) where
  trees : List (String × TrieNode H)
  globalMiddlewares : List H

/-- A freshly constructed `new Router()`. -/
def Router.empty {H : Type} : Router H := ⟨[], []⟩

/-- `use(middleware)`: appends to the global middleware list. -/
def Router.use {H : Type} (r : Router H) (middleware : H) : Router H :=
  { r with globalMiddlewares := r.globalMiddlewares ++ [middleware] }

/-- `register(method, path, handler, middlewares)`: splits the pattern,
creates the method tree if missing, inserts the route, and snapshots
`[...globalMiddlewares, ...middlewares]` into it. -/
def Router.register {H : Type} (r : Router H) (method path : String)
    (handler : H) (middlewares : List H) : Router H :=
  let segments := splitPath path
  let root := (getA r.trees method).getD createNode
  { r with
    trees := setA r.trees method
      (insertRoute root segments ⟨handler, r.globalMiddlewares ++ middlewares⟩) }

/-- `get(path, handler, middlewares)`. -/
def Router.get {H : Type} (r : Router H) (path : String) (handler : H)
    (middlewares : List H) : Router H :=
  r.register "GET" path handler middlewares

/-- The `dispatch` closure of `compose`, with the remaining handler list made
explicit (the source reads `mws[i]`; here the list suffix starting at `i` is
passed alongside `i`).  Re-entering at an index not strictly above the cursor
throws `Error("next() called multiple times")`; otherwise the cursor is set
to `i`, a missing function ends the chain with `undefined`, and a present one
runs with the continuation for `i + 1`: a thrown error is caught and replaced
by the generic 500 response, a returned `Response` is passed up, anything
else becomes `undefined`. -/
def dispatch {Env Store σ : Type} (ctx : Context Env Store) :
    List (Handler Env Store σ) → Nat → JsM (DState σ) (Option Response)
  | mws, i => fun s =>
    if (i : Int) ≤ s.index then
      (Except.error "next() called multiple times", s)
    else
      let s1 : DState σ := { s with index := (i : Int) }
      match mws with
      | [] => (Except.ok none, s1)
      | fn :: rest =>
        match fn ctx (dispatch ctx rest (i + 1)) s1 with
        | (Except.ok (some resp), s2) => (Except.ok (some resp), s2)
        | (Except.ok none, s2) => (Except.ok none, s2)
        | (Except.error _, s2) => (Except.ok (some internalServerErrorResponse), s2)

/-- `compose(mws)` applied to a context: runs `dispatch(0)` with a fresh
cursor (`index = -1`); the caller's cursor value is restored afterwards,
modelling that each `compose` invocation owns its own `index` cell. -/
def compose {Env Store σ : Type} (mws : List (Handler Env Store σ)) :
    Context Env Store → JsM (DState σ) (Option Response) :=
  fun ctx s =>
    match dispatch ctx mws 0 { s with index := -1 } with
    | (r, s1) => (r, { s1 with index := s.index })

/-- `handle(req, env, store)`: builds the context, matches the method tree
then the catch-all `"*"` tree, answers 404 on no match, and otherwise runs
`compose([...middlewares, handler])` on the context, substituting the
default `"OK"` response when nothing terminal was produced. -/
def Router.handle {Env Store σ : Type} (r : Router (Handler Env Store σ))
    (req : Request) (env : Env) (store : Store) : JsM (DState σ) Response :=
  let segments := splitPath req.url.pathname
  let query := fromEntries req.url.searchParams
  let matched :=
    match tryMatch (getA r.trees req.method) segments with
    | some m => some m
    | none => tryMatch (getA r.trees "*") segments
  match matched with
  | none => fun s => (Except.ok notFoundResponse, s)
  | some (rt, ps) =>
    let ctx : Context Env Store := ⟨req, ps, query, env, store⟩
    fun s =>
      match compose (rt.middlewares ++ [rt.handler]) ctx s with
      | (Except.ok (some resp), s1) => (Except.ok resp, s1)
      | (Except.ok none, s1) => (Except.ok okResponse, s1)
      | (Except.error e, s1) => (Except.error e, s1)

/-- The synthetic handler that `route(prefix, subrouter)` registers: strips
the mount path from the pathname (falling back to `"/"` when stripping
empties it or the pathname does not start with it), rebuilds the request
around the rewritten URL, and delegates to the subrouter's `handle` with the
same env and store values. -/
def mountHandler {Env Store σ : Type} (pre : String)
    (sub : Router (Handler Env Store σ)) : Handler Env Store σ :=
  fun ctx _next s =>
    let pathname := ctx.req.url.pathname
    let subPath :=
      if strStartsWith pathname pre = true then
        (if strDrop pathname (strLength pre) = "" then "/"
         else strDrop pathname (strLength pre))
      else "/"
    let newReq : Request := { ctx.req with url := { ctx.req.url with pathname := subPath } }
    match Router.handle sub newReq ctx.env ctx.store s with
    | (Except.ok resp, s1) => (Except.ok (some resp), s1)
    | (Except.error e, s1) => (Except.error e, s1)

/-- `route(prefix, subrouter)`: registers the mount handler under the
catch-all `"*"` method at the prefix extended with a wildcard tail. -/
def Router.route {Env Store σ : Type} (r : Router (Handler Env Store σ))
    (pre : String) (sub : Router (Handler Env Store σ)) :
    Router (Handler Env Store σ) :=
  r.register "*" (if strEndsWith pre "/" = true then pre ++ "*" else pre ++ "/*")
    (mountHandler pre sub) []

/-- A handler that immediately returns a 200 response with the given body. -/
def respondingHandler {Env Store σ : Type} (body : String) : Handler Env Store σ :=
  fun _ctx _next s => (Except.ok (some ⟨body, 200⟩), s)

/-- A handler that throws the given error. -/
def throwingHandler {Env Store σ : Type} (msg : String) : Handler Env Store σ :=
  fun _ctx _next s => (Except.error msg, s)

/-- A middleware that awaits its continuation, discards whatever it produced,
and returns no terminal value (void); a rejection of the continuation is
re-raised, as an awaited rejection is in JS. -/
def voidNextMiddleware {Env Store σ : Type} : Handler Env Store σ :=
  fun _ctx next s =>
    match next s with
    | (Except.ok _, s1) => (Except.ok none, s1)
    | (Except.error e, s1) => (Except.error e, s1)

/-- A middleware that awaits its continuation twice in sequence, returning the
second result; rejections are re-raised. -/
def doubleNextMiddleware {Env Store σ : Type} : Handler Env Store σ :=
  fun _ctx next s =>
    match next s with
    | (Except.ok _, s1) =>
      (match next s1 with
       | (Except.ok v, s2) => (Except.ok v, s2)
       | (Except.error e, s2) => (Except.error e, s2))
    | (Except.error e, s1) => (Except.error e, s1)

/-- A middleware that appends its tag to the log and returns its continuation's
result (`return next()`). -/
def loggingMiddleware {Env Store : Type} (tag : String) : Handler Env Store (List String) :=
  fun _ctx next s => next { s with user := s.user ++ [tag] }

/-- A handler that appends its tag to the log and responds with it. -/
def loggingHandler {Env Store : Type} (tag : String) : Handler Env Store (List String) :=
  fun _ctx _next s => (Except.ok (some ⟨tag, 200⟩), { s with user := s.user ++ [tag] })

/-- A handler that records the exact context it was invoked with and responds
with the given body. -/
def recordingHandler {Env Store : Type} (body : String) :
    Handler Env Store (List (Context Env Store)) :=
  fun ctx _next s => (Except.ok (some ⟨body, 200⟩), { s with user := s.user ++ [ctx] })

/-- A GET request to the given path on a fixed host, with no query string. -/
def mkReq (path : String) : Request := ⟨"GET", ⟨"http://localhost", path, []⟩⟩

/-- A fixed context used where the dispatcher is exercised directly. -/
def ctx0 : Context Nat Nat := ⟨mkReq "/x", [], [], 0, 0⟩

/-- Router whose only route has a throwing terminal handler. -/
def rC1 : Router (Handler Nat Nat (List String)) :=
  Router.empty.register "GET" "/boom" (throwingHandler "boom") []

/-- Router registering `/a/:x` and then `/a/:y` (same prefix, two capture names). -/
def rC2 : Router (Handler Nat Nat (List String)) :=
  (Router.empty.register "GET" "/a/:x" (respondingHandler "h1") []).register
    "GET" "/a/:y" (respondingHandler "h2") []

/-- Router with a single wildcard route `/api/*`. -/
def rC3 : Router (Handler Nat Nat (List String)) :=
  Router.empty.register "GET" "/api/*" (respondingHandler "wild") []

/-- Router whose route has a void-returning middleware before the handler. -/
def rC4 : Router (Handler Nat Nat (List String)) :=
  Router.empty.register "GET" "/r" (respondingHandler "R") [voidNextMiddleware]

/-- Trie with literal, parameter and wildcard siblings under `/a`. -/
def trieC5 : TrieNode Nat :=
  insertRoute
    (insertRoute (insertRoute createNode (splitPath "/a/lit") ⟨1, []⟩)
      (splitPath "/a/:p") ⟨2, []⟩)
    (splitPath "/a/*") ⟨3, []⟩

/-- Trie with literal and wildcard siblings under `/b`. -/
def trieC5b : TrieNode Nat :=
  insertRoute (insertRoute createNode (splitPath "/b/lit") ⟨4, []⟩)
    (splitPath "/b/*") ⟨5, []⟩

/-- The literal child stored under `"a"` in `trieC5`. -/
def trieC5aChild : TrieNode Nat := (getA trieC5.children "a").getD createNode

/-- Router registering A, then adding global middleware M, then registering B. -/
def rC6 : Router (Handler Nat Nat (List String)) :=
  ((Router.empty.register "GET" "/a" (loggingHandler "A") []).use
    (loggingMiddleware "M")).register "GET" "/b" (loggingHandler "B") []

/-- Child router of the mount scenario: GET `/users`. -/
def childC8 : Router (Handler Nat Nat (List (Context Nat Nat))) :=
  Router.empty.register "GET" "/users" (recordingHandler "Subrouter users") []

/-- Parent router mounting the child at `/api`. -/
def parentC8 : Router (Handler Nat Nat (List (Context Nat Nat))) :=
  Router.route Router.empty "/api" childC8

/-- Router holding a literal route and a parameter route under one prefix,
where the literal branch dead-ends on longer paths. -/
def r9 : Router (Handler Nat Nat (List String)) :=
  (Router.empty.register "GET" "/files/special" (respondingHandler "S") []).register
    "GET" "/files/:name/info" (respondingHandler "I") []

/-- Router holding only the parameter route of the `r9` scenario. -/
def r9b : Router (Handler Nat Nat (List String)) :=
  Router.empty.register "GET" "/files/:name/info" (respondingHandler "I") []

/-- Router whose GET tree dead-ends after binding a parameter, while the
catch-all tree matches the same path. -/
def r10 : Router (Handler Nat Nat (List (Context Nat Nat))) :=
  (Router.empty.register "GET" "/u/:id/x" (recordingHandler "X") []).register
    "*" "/u/:uid/y" (recordingHandler "REC") []

/-- The request of the `r10` scenario. -/
def req10 : Request := mkReq "/u/7/y"

/-- Looking up a key just written into an association list yields that value. -/
theorem getA_setA_self {α : Type} (m : List (String × α)) (k : String) (v : α) :
    getA (setA m k v) k = some v := by
  induction m with
  | nil => simp [setA, getA]
  | cons p rest ih =>
    obtain ⟨k', w⟩ := p
    by_cases h : k' = k
    · subst h; simp [setA, getA]
    · simp [setA, getA, h, ih]

/-- Entering `dispatch` at an index not strictly above the cursor throws the
double-invocation error and performs no effect at all. -/
theorem dispatch_guard {Env Store σ : Type} (ctx : Context Env Store)
    (mws : List (Handler Env Store σ)) (i : Nat) (s : DState σ)
    (h : (i : Int) ≤ s.index) :
    dispatch ctx mws i s = (Except.error "next() called multiple times", s) := by
  rw [dispatch]
  simp only [if_pos h]

/-- Past the guard, `dispatch` always resolves: every branch, including the
one catching a thrown error, produces an `Except.ok` result. -/
theorem dispatch_ok {Env Store σ : Type} (ctx : Context Env Store)
    (mws : List (Handler Env Store σ)) (i : Nat) (s : DState σ)
    (h : s.index < (i : Int)) :
    ∃ v s', dispatch ctx mws i s = (Except.ok v, s') := by
  have hg : ¬ (i : Int) ≤ s.index := not_le.mpr h
  cases mws with
  | nil => exact ⟨none, { s with index := (i : Int) }, by rw [dispatch]; simp only [if_neg hg]⟩
  | cons fn rest =>
    rcases hfn : fn ctx (dispatch ctx rest (i + 1)) { s with index := (i : Int) } with ⟨res, s2⟩
    cases res with
    | ok v =>
      cases v with
      | none => exact ⟨none, s2, by rw [dispatch]; simp only [if_neg hg, hfn]⟩
      | some resp => exact ⟨some resp, s2, by rw [dispatch]; simp only [if_neg hg, hfn]⟩
    | error e =>
      exact ⟨some internalServerErrorResponse, s2, by rw [dispatch]; simp only [if_neg hg, hfn]⟩

/-- `compose` always resolves (the fresh cursor `-1` passes the guard and all
downstream errors are contained). -/
theorem compose_ok {Env Store σ : Type} (mws : List (Handler Env Store σ))
    (ctx : Context Env Store) (s : DState σ) :
    ∃ v s', compose mws ctx s = (Except.ok v, s') := by
  obtain ⟨v, s', h⟩ :=
    dispatch_ok ctx mws 0 { s with index := -1 } (by simp)
  exact ⟨v, { s' with index := s.index }, by simp only [compose, h]⟩

/-- C1 counterexample: with the route `GET /boom` whose terminal handler
throws `"boom"`, `handle` does not reject with the handler's error — it
resolves with the generic 500 response, contradicting the claim that the
handler's error propagates to the caller. -/
theorem C1_counterexample :
    Router.handle rC1 (mkReq "/boom") 0 0 ⟨0, []⟩
      = (Except.ok internalServerErrorResponse, ⟨0, []⟩) ∧
    (Router.handle rC1 (mkReq "/boom") 0 0 ⟨0, []⟩).1 ≠ Except.error "boom" := by
  have h1 : Router.handle rC1 (mkReq "/boom") 0 0 ⟨0, []⟩
      = (Except.ok internalServerErrorResponse, ⟨0, []⟩) := rfl
  refine ⟨h1, fun h => ?_⟩
  rw [h1] at h
  exact Except.noConfusion h

/-- C1 (corrected): the terminal handler is composed into the same guarded
chain as the middleware, so its thrown error IS caught by the dispatcher and
replaced by the generic 500 response at the handler's own frame; consequently
`handle` always resolves and never rejects, whatever the router, request or
state. -/
theorem C1_amended :
    (∀ (Env Store σ : Type) (ctx : Context Env Store) (msg : String) (i : Nat) (s : DState σ),
        s.index < (i : Int) →
        dispatch ctx [throwingHandler msg] i s
          = (Except.ok (some internalServerErrorResponse), { s with index := (i : Int) })) ∧
    (∀ (Env Store σ : Type) (r : Router (Handler Env Store σ)) (req : Request)
        (env : Env) (store : Store) (s : DState σ),
        ∃ resp s', Router.handle r req env store s = (Except.ok resp, s')) := by
  constructor
  · intro Env Store σ ctx msg i s h
    have hg : ¬ (i : Int) ≤ s.index := not_le.mpr h
    rw [dispatch]
    simp only [if_neg hg, throwingHandler]
  · intro Env Store σ r req env store s
    rcases h1 : tryMatch (getA r.trees req.method) (splitPath req.url.pathname) with _ | ⟨rt, ps⟩
    · rcases h2 : tryMatch (getA r.trees "*") (splitPath req.url.pathname) with _ | ⟨rt, ps⟩
      · exact ⟨notFoundResponse, s, by simp only [Router.handle, h1, h2]⟩
      · obtain ⟨v, s', hc⟩ := compose_ok (rt.middlewares ++ [rt.handler])
          ⟨req, ps, fromEntries req.url.searchParams, env, store⟩ s
        cases v with
        | none => exact ⟨okResponse, s', by simp only [Router.handle, h1, h2, hc]⟩
        | some resp => exact ⟨resp, s', by simp only [Router.handle, h1, h2, hc]⟩
    · obtain ⟨v, s', hc⟩ := compose_ok (rt.middlewares ++ [rt.handler])
        ⟨req, ps, fromEntries req.url.searchParams, env, store⟩ s
      cases v with
      | none => exact ⟨okResponse, s', by simp only [Router.handle, h1, hc]⟩
      | some resp => exact ⟨resp, s', by simp only [Router.handle, h1, hc]⟩

/-- C1 witness: the amended dispatcher fact at a concrete input. -/
theorem C1_amended_witness :
    dispatch ctx0 [throwingHandler "boom"] 1 (⟨0, []⟩ : DState (List String))
      = (Except.ok (some internalServerErrorResponse), ⟨1, []⟩) :=
  C1_amended.1 Nat Nat (List String) ctx0 "boom" 1 ⟨0, []⟩ (by decide)

/-- C2 counterexample: after registering `GET /a/:x` and then `GET /a/:y`,
matching `/a/7` binds the segment under the FIRST registration's name `x`,
not under the most recent name `y` as the claim states. -/
theorem C2_counterexample :
    (tryMatch (getA rC2.trees "GET") ["a", "7"]).map Prod.snd = some [("x", "7")] ∧
    (tryMatch (getA rC2.trees "GET") ["a", "7"]).map Prod.snd ≠ some [("y", "7")] := by
  have h1 : (tryMatch (getA rC2.trees "GET") ["a", "7"]).map Prod.snd = some [("x", "7")] := rfl
  refine ⟨h1, fun h => ?_⟩
  rw [h1] at h
  exact absurd h (by decide)

/-- C2 (corrected): the stored capture name is never overwritten — the FIRST
registration wins.  Inserting any pattern leaves a node's own `paramName`
untouched, and a parameter segment reaching a node with an existing parameter
child reuses that child (descending into it) without updating its name; hence
the `rC2` scenario binds `/a/7` under the original name `x`. -/
theorem C2_amended :
    (∀ (H : Type) (n : TrieNode H) (segs : List String) (rt : RouteNode H),
        (insertRoute n segs rt).paramName = n.paramName) ∧
    (∀ (H : Type) (n : TrieNode H) (seg : String) (rest : List String)
        (rt : RouteNode H) (pc : TrieNode H),
        n.paramChild = some pc → strStartsWith seg ":" = true →
        (insertRoute n (seg :: rest) rt).paramChild = some (insertRoute pc rest rt)) ∧
    (tryMatch (getA rC2.trees "GET") ["a", "7"]).map Prod.snd = some [("x", "7")] := by
  refine ⟨?_, ?_, rfl⟩
  · intro H n segs rt
    cases n with
    | mk ch pc pn wc rt0 =>
      cases segs with
      | nil => simp [insertRoute, TrieNode.paramName]
      | cons seg rest =>
        by_cases h1 : seg = "*"
        · simp [insertRoute, TrieNode.paramName, h1]
        · by_cases h2 : strStartsWith seg ":" = true <;>
            simp [insertRoute, TrieNode.paramName, h1, h2]
  · intro H n seg rest rt pc hpc hcolon
    have hW : ¬ seg = "*" := by
      intro hEq
      subst hEq
      exact absurd hcolon (by decide)
    cases n with
    | mk ch pc0 pn wc rt0 =>
      simp only [TrieNode.paramChild] at hpc
      subst hpc
      simp [insertRoute, hW, hcolon, TrieNode.paramChild]

/-- C2 witness: reusing an existing parameter child (named `x`) for the new
pattern segment `:y` descends into that child unchanged. -/
theorem C2_amended_witness :
    (insertRoute (⟨[], some ⟨[], none, some "x", none, none⟩, none, none, none⟩ : TrieNode Nat)
        [":y"] ⟨2, []⟩).paramChild
      = some (insertRoute (⟨[], none, some "x", none, none⟩ : TrieNode Nat) [] ⟨2, []⟩) :=
  C2_amended.2.1 Nat ⟨[], some ⟨[], none, some "x", none, none⟩, none, none, none⟩ ":y" []
    ⟨2, []⟩ ⟨[], none, some "x", none, none⟩ rfl (by decide)

/-- C3 counterexample: with only `GET /api/*` registered, the request path
`/api` — equal to the literal prefix — does NOT match: the trie walk ends at
the prefix node, which carries no route, and `handle` answers 404 instead of
binding `""` under `"*"` as the claim states. -/
theorem C3_counterexample :
    Router.handle rC3 (mkReq "/api") 0 0 ⟨0, []⟩ = (Except.ok notFoundResponse, ⟨0, []⟩) ∧
    tryMatch (getA rC3.trees "GET") ["api"] = none :=
  ⟨rfl, rfl⟩

/-- C3 (corrected): for a single route registered at a literal prefix followed
by the wildcard token, any path extending the prefix by at least one segment
matches and binds the (necessarily nonempty) joined remainder under `"*"`;
the path equal to the prefix alone does NOT match, because the route is bound
on the wildcard child, not on the prefix node itself. -/
theorem C3_amended (H : Type) (ls rest : List String) (rt : RouteNode H)
    (hls : ∀ s ∈ ls, s ≠ "*" ∧ strStartsWith s ":" = false)
    (hrest : rest ≠ []) :
    tryMatchLoop (insertRoute createNode (ls ++ ["*"]) rt) (ls ++ rest) []
      = some (rt, [("*", joinSlash rest)]) ∧
    tryMatchLoop (insertRoute createNode (ls ++ ["*"]) rt) ls [] = none := by
  induction ls with
  | nil =>
    rcases rest with _ | ⟨r, rs⟩
    · exact absurd rfl hrest
    · constructor
      · simp [insertRoute, createNode, setRouteField, tryMatchLoop, getA, setA,
          TrieNode.children, TrieNode.paramChild, TrieNode.wildcardChild, TrieNode.route]
      · simp [insertRoute, createNode, setRouteField, tryMatchLoop, TrieNode.route]
  | cons s ls' ih =>
    have hs := hls s (List.mem_cons_self s ls')
    have htail : ∀ x ∈ ls', x ≠ "*" ∧ strStartsWith x ":" = false :=
      fun x hx => hls x (List.mem_cons_of_mem s hx)
    obtain ⟨ih1, ih2⟩ := ih htail
    constructor
    · simp only [List.cons_append]
      simp [insertRoute, createNode, hs.1, hs.2, tryMatchLoop, getA, setA, TrieNode.children]
      simpa only [createNode] using ih1
    · simp only [List.cons_append]
      simp [insertRoute, createNode, hs.1, hs.2, tryMatchLoop, getA, setA, TrieNode.children]
      simpa only [createNode] using ih2

/-- C3 witness: the amended wildcard fact at the concrete prefix `api` with
remainder `users/1`, and the failing exact-prefix walk. -/
theorem C3_amended_witness :
    tryMatchLoop (insertRoute createNode (["api"] ++ ["*"]) (⟨0, []⟩ : RouteNode Nat))
        (["api"] ++ ["users", "1"]) [] = some (⟨0, []⟩, [("*", joinSlash ["users", "1"])]) ∧
    tryMatchLoop (insertRoute createNode (["api"] ++ ["*"]) (⟨0, []⟩ : RouteNode Nat))
        ["api"] [] = none :=
  C3_amended Nat ["api"] ["users", "1"] ⟨0, []⟩ (by decide) (by decide)

/-- C4 counterexample: route `GET /r` whose handler returns the response `R`,
behind one middleware that awaits its continuation and returns void — the
handler's response is NOT propagated: `handle` answers the default `"OK"`
response, contradicting the claim. -/
theorem C4_counterexample :
    Router.handle rC4 (mkReq "/r") 0 0 ⟨0, []⟩ = (Except.ok okResponse, ⟨0, []⟩) ∧
    (Router.handle rC4 (mkReq "/r") 0 0 ⟨0, []⟩).1 ≠ Except.ok (⟨"R", 200⟩ : Response) := by
  have h1 : Router.handle rC4 (mkReq "/r") 0 0 ⟨0, []⟩ = (Except.ok okResponse, ⟨0, []⟩) := rfl
  refine ⟨h1, fun h => ?_⟩
  rw [h1] at h
  exact absurd (Except.ok.inj h) (by decide)

/-- C4 (corrected): when a middleware awaits its continuation and then returns
no terminal value, the dispatch step's own result is void — whatever value the
awaited continuation produced is DISCARDED, not propagated upward (so a
middleware must `return next()` for the downstream response to surface, and
otherwise `handle` substitutes the default `"OK"` response). -/
theorem C4_amended (Env Store σ : Type) (ctx : Context Env Store)
    (rest : List (Handler Env Store σ)) (i : Nat) (s : DState σ)
    (v : Option Response) (s' : DState σ)
    (hguard : s.index < (i : Int))
    (hnext : dispatch ctx rest (i + 1) { s with index := (i : Int) } = (Except.ok v, s')) :
    dispatch ctx (voidNextMiddleware :: rest) i s = (Except.ok none, s') := by
  have hg : ¬ (i : Int) ≤ s.index := not_le.mpr hguard
  rw [dispatch]
  simp only [if_neg hg, voidNextMiddleware, hnext]

/-- C4 witness: with the void-returning middleware ahead of a handler that
produced the response `R`, the dispatch step yields void. -/
theorem C4_amended_witness :
    dispatch ctx0 [voidNextMiddleware, respondingHandler "R"] 0 (⟨-1, []⟩ : DState (List String))
      = (Except.ok none, ⟨1, []⟩) :=
  C4_amended Nat Nat (List String) ctx0 [respondingHandler "R"] 0 ⟨-1, []⟩
    (some ⟨"R", 200⟩) ⟨1, []⟩ (by decide) rfl

/-- Pattern-side lookup mirroring the descent of `register`: follows the
wildcard / parameter / literal edge that a given pattern segment would take
and returns the route bound at the end (for a wildcard segment, the route on
the wildcard child; later segments ignored, as in `register`). -/
def lookupPattern {H : Type} : TrieNode H → List String → Option (RouteNode H)
  | n, [] => n.route
  | n, seg :: rest =>
    if seg = "*" then (n.wildcardChild).bind TrieNode.route
    else if strStartsWith seg ":" = true then
      (n.paramChild).bind (fun p => lookupPattern p rest)
    else (getA n.children seg).bind (fun c => lookupPattern c rest)

/-- Setting the route field leaves exactly that route bound. -/
theorem route_setRouteField {H : Type} (n : TrieNode H) (rt : RouteNode H) :
    (setRouteField n rt).route = some rt := by
  cases n
  simp [setRouteField, TrieNode.route]

/-- The route just inserted along a pattern is found again along that pattern. -/
theorem lookupPattern_insertRoute {H : Type} (segs : List String) (n : TrieNode H)
    (rt : RouteNode H) :
    lookupPattern (insertRoute n segs rt) segs = some rt := by
  induction segs generalizing n with
  | nil =>
    cases n
    simp [insertRoute, lookupPattern, TrieNode.route]
  | cons seg rest ih =>
    cases n with
    | mk ch pc pn wc rt0 =>
      by_cases h1 : seg = "*"
      · subst h1
        simp [insertRoute, lookupPattern, TrieNode.wildcardChild, route_setRouteField]
      · by_cases h2 : strStartsWith seg ":" = true
        · cases pc with
          | none => simp [insertRoute, lookupPattern, h1, h2, TrieNode.paramChild, ih]
          | some p => simp [insertRoute, lookupPattern, h1, h2, TrieNode.paramChild, ih]
        · simp [insertRoute, lookupPattern, h1, h2, TrieNode.children, getA_setA_self, ih]

/-- C5 (confirmed): at every node the matcher prefers a literal child keyed by
the current segment; the parameter child is consulted only when that lookup
fails; the wildcard child only when the parameter child is also absent — and
in the concrete tries with coexisting siblings, a segment equal to the
literal key takes the literal branch even though the parameter or wildcard
sibling could match it. -/
theorem C5_precedence :
    (∀ (H : Type) (cur : TrieNode H) (seg : String) (rest : List String)
        (params : List (String × String)) (child : TrieNode H),
        getA cur.children seg = some child →
        tryMatchLoop cur (seg :: rest) params = tryMatchLoop child rest params) ∧
    (∀ (H : Type) (cur : TrieNode H) (seg : String) (rest : List String)
        (params : List (String × String)) (pc : TrieNode H),
        getA cur.children seg = none → cur.paramChild = some pc →
        tryMatchLoop cur (seg :: rest) params
          = tryMatchLoop pc rest (setA params (pc.paramName.getD "undefined") seg)) ∧
    (∀ (H : Type) (cur : TrieNode H) (seg : String) (rest : List String)
        (params : List (String × String)) (wc : TrieNode H),
        getA cur.children seg = none → cur.paramChild = none →
        cur.wildcardChild = some wc →
        tryMatchLoop cur (seg :: rest) params
          = (wc.route).map (fun rt => (rt, setA params "*" (joinSlash (seg :: rest))))) ∧
    tryMatchLoop trieC5 ["a", "lit"] [] = some (⟨1, []⟩, []) ∧
    tryMatchLoop trieC5 ["a", "zzz"] [] = some (⟨2, []⟩, [("p", "zzz")]) ∧
    tryMatchLoop trieC5b ["b", "lit"] [] = some (⟨4, []⟩, []) ∧
    tryMatchLoop trieC5b ["b", "zzz"] [] = some (⟨5, []⟩, [("*", "zzz")]) := by
  refine ⟨?_, ?_, ?_, rfl, rfl, rfl, rfl⟩
  · intro H cur seg rest params child h
    simp only [tryMatchLoop, h]
  · intro H cur seg rest params pc h1 h2
    simp only [tryMatchLoop, h1, h2]
  · intro H cur seg rest params wc h1 h2 h3
    simp only [tryMatchLoop, h1, h2, h3]
    cases hr : wc.route <;> simp [hr]

/-- C5 witness: the literal-first equation applied at the `trieC5` node whose
literal, parameter and wildcard children coexist. -/
theorem C5_precedence_witness :
    tryMatchLoop trieC5 ["a", "lit"] [] = tryMatchLoop trieC5aChild ["lit"] [] :=
  C5_precedence.1 Nat trieC5 "a" ["lit"] [] trieC5aChild rfl

/-- C6 (confirmed): a route's middleware list is a snapshot taken at
registration: `use` after `register` leaves the trees (hence every stored
route) unchanged, the route bound by `register` carries exactly the global
middleware present at that call followed by the route-specific ones, and in
the A / use(M) / B scenario a request to A never runs M while a request to B
does. -/
theorem C6_snapshot :
    (∀ (Env Store σ : Type) (r : Router (Handler Env Store σ)) (method path : String)
        (h : Handler Env Store σ) (mws : List (Handler Env Store σ))
        (M : Handler Env Store σ),
        ((r.register method path h mws).use M).trees = (r.register method path h mws).trees) ∧
    (∀ (Env Store σ : Type) (r : Router (Handler Env Store σ)) (method path : String)
        (h : Handler Env Store σ) (mws : List (Handler Env Store σ)),
        lookupPattern ((getA (r.register method path h mws).trees method).getD createNode)
            (splitPath path)
          = some ⟨h, r.globalMiddlewares ++ mws⟩) ∧
    Router.handle rC6 (mkReq "/a") 0 0 ⟨0, []⟩ = (Except.ok ⟨"A", 200⟩, ⟨0, ["A"]⟩) ∧
    Router.handle rC6 (mkReq "/b") 0 0 ⟨0, []⟩ = (Except.ok ⟨"B", 200⟩, ⟨0, ["M", "B"]⟩) := by
  refine ⟨?_, ?_, rfl, rfl⟩
  · intro Env Store σ r method path h mws M
    rfl
  · intro Env Store σ r method path h mws
    simp only [Router.register, getA_setA_self, Option.getD_some]
    exact lookupPattern_insertRoute _ _ _

/-- C7 (confirmed): invoking the continuation for a step at or below the
cursor aborts immediately with the distinguishable error
`"next() called multiple times"`, leaving the state untouched (so nothing
downstream runs again); concretely, a middleware that awaits `next` twice
gets the guard error on the second call — the downstream handler has logged
exactly once — and the error surfaces from that middleware's frame as the
contained 500 response. -/
theorem C7_doubleNext :
    (∀ (Env Store σ : Type) (ctx : Context Env Store)
        (mws : List (Handler Env Store σ)) (i : Nat) (s : DState σ),
        (i : Int) ≤ s.index →
        dispatch ctx mws i s = (Except.error "next() called multiple times", s)) ∧
    dispatch ctx0 [doubleNextMiddleware, loggingHandler "H"] 0 ⟨-1, []⟩
      = (Except.ok (some internalServerErrorResponse), ⟨1, ["H"]⟩) := by
  refine ⟨?_, rfl⟩
  intro Env Store σ ctx mws i s h
  exact dispatch_guard ctx mws i s h

/-- C7 witness: the guard fact at a concrete re-entered cursor. -/
theorem C7_doubleNext_witness :
    dispatch ctx0 ([] : List (Handler Nat Nat (List String))) 0 ⟨5, []⟩
      = (Except.error "next() called multiple times", ⟨5, []⟩) :=
  C7_doubleNext.1 Nat Nat (List String) ctx0 [] 0 ⟨5, []⟩ (by decide)

/-- C8 (confirmed): with a child router holding `GET /users` mounted at
`/api`, handling `GET /api/users` through the parent invokes the child's
handler exactly once, with the request path rewritten to `/users` and with
the very same env and store values the parent received. -/
theorem C8_mount (e st : Nat) :
    Router.handle parentC8 (mkReq "/api/users") e st ⟨0, []⟩
      = (Except.ok ⟨"Subrouter users", 200⟩,
          ⟨0, [⟨⟨"GET", ⟨"http://localhost", "/users", []⟩⟩, [], [], e, st⟩]⟩) := rfl

/-- C9 (confirmed): the matcher commits to the literal branch and never
backtracks — with `/files/special` and `/files/:name/info` both registered,
the request `/files/special/info` follows the literal `special` child, dead
ends, and yields 404, even though the parameter route alone matches that very
path (binding `name` to `special`). -/
theorem C9_noBacktrack :
    Router.handle r9 (mkReq "/files/special/info") 0 0 ⟨0, []⟩
      = (Except.ok notFoundResponse, ⟨0, []⟩) ∧
    (tryMatch (getA r9b.trees "GET") (splitPath "/files/special/info")).map Prod.snd
      = some [("name", "special")] ∧
    Router.handle r9b (mkReq "/files/special/info") 0 0 ⟨0, []⟩
      = (Except.ok ⟨"I", 200⟩, ⟨0, []⟩) :=
  ⟨rfl, rfl, rfl⟩

/-- C10 (confirmed): `handle` hands the middleware chain a context whose
params are exactly those accumulated by the successful walk (the
method-specific one, or the catch-all one after the method walk failed), and
whose req, query, env and store fields are the original request data
untouched; when both walks fail nothing is dispatched and 404 is returned —
so bindings of a failed walk never reach any handler, as the concrete
catch-all-retry scenario also shows. -/
theorem C10_paramsFrame :
    (∀ (Env Store σ : Type) (r : Router (Handler Env Store σ)) (req : Request)
        (env : Env) (store : Store) (rt : RouteNode (Handler Env Store σ))
        (ps : List (String × String)),
        tryMatch (getA r.trees req.method) (splitPath req.url.pathname) = some (rt, ps) →
        Router.handle r req env store = fun s =>
          match compose (rt.middlewares ++ [rt.handler])
              ⟨req, ps, fromEntries req.url.searchParams, env, store⟩ s with
          | (Except.ok (some resp), s1) => (Except.ok resp, s1)
          | (Except.ok none, s1) => (Except.ok okResponse, s1)
          | (Except.error e, s1) => (Except.error e, s1)) ∧
    (∀ (Env Store σ : Type) (r : Router (Handler Env Store σ)) (req : Request)
        (env : Env) (store : Store) (rt : RouteNode (Handler Env Store σ))
        (ps : List (String × String)),
        tryMatch (getA r.trees req.method) (splitPath req.url.pathname) = none →
        tryMatch (getA r.trees "*") (splitPath req.url.pathname) = some (rt, ps) →
        Router.handle r req env store = fun s =>
          match compose (rt.middlewares ++ [rt.handler])
              ⟨req, ps, fromEntries req.url.searchParams, env, store⟩ s with
          | (Except.ok (some resp), s1) => (Except.ok resp, s1)
          | (Except.ok none, s1) => (Except.ok okResponse, s1)
          | (Except.error e, s1) => (Except.error e, s1)) ∧
    (∀ (Env Store σ : Type) (r : Router (Handler Env Store σ)) (req : Request)
        (env : Env) (store : Store),
        tryMatch (getA r.trees req.method) (splitPath req.url.pathname) = none →
        tryMatch (getA r.trees "*") (splitPath req.url.pathname) = none →
        Router.handle r req env store = fun s => (Except.ok notFoundResponse, s)) ∧
    Router.handle r10 req10 7 8 ⟨0, []⟩
      = (Except.ok ⟨"REC", 200⟩, ⟨0, [⟨req10, [("uid", "7")], [], 7, 8⟩]⟩) := by
  refine ⟨?_, ?_, ?_, rfl⟩
  · intro Env Store σ r req env store rt ps h1
    simp only [Router.handle, h1]
  · intro Env Store σ r req env store rt ps h1 h2
    simp only [Router.handle, h1, h2]
  · intro Env Store σ r req env store h1 h2
    simp only [Router.handle, h1, h2]

/-- C10 witness: the catch-all-retry characterization at the concrete router
whose GET walk fails and whose catch-all walk binds `uid`. -/
theorem C10_paramsFrame_witness :
    Router.handle r10 req10 7 8 = fun s =>
      match compose
          ((⟨recordingHandler "REC", []⟩ :
              RouteNode (Handler Nat Nat (List (Context Nat Nat)))).middlewares
            ++ [(⟨recordingHandler "REC", []⟩ :
              RouteNode (Handler Nat Nat (List (Context Nat Nat)))).handler])
          ⟨req10, [("uid", "7")], fromEntries req10.url.searchParams, 7, 8⟩ s with
      | (Except.ok (some resp), s1) => (Except.ok resp, s1)
      | (Except.ok none, s1) => (Except.ok okResponse, s1)
      | (Except.error e, s1) => (Except.error e, s1) :=
  C10_paramsFrame.2.1 Nat Nat (List (Context Nat Nat)) r10 req10 7 8
    ⟨recordingHandler "REC", []⟩ [("uid", "7")] rfl rfl
